import Mathlib

/-!
# Verification of the photobooth state controller

A shallow embedding of `photobooth.py`: the four-state controller
(`update` for ticks, `button_event` for button presses), the external
process model (video feed / photo preview / still capture / print), and
the button-LED indicator.  Time is modelled with rationals; side effects
on external processes are recorded both as boolean fields of the state
and as an explicit effect trace per operation.
-/

namespace Photobooth

/-- The four states of the controller (`States` enum in the source). -/
inductive States where
  | IDLE
  | COUNTDOWN
  | PRINT_CHECK
  | SLEEP
deriving DecidableEq, Repr

/-- Blink cycle length, in seconds (`BLINK_PERIOD = 1`). -/
def BLINK_PERIOD : ℚ := 1

/-- Countdown total time (`COUNTDOWN_DURATION = 8`). -/
def COUNTDOWN_DURATION : ℚ := 8

/-- Check-print total time (`PRINT_CHECK_DURATION = 10`). -/
def PRINT_CHECK_DURATION : ℚ := 10

/-- Time before sleep (`TIME_BEFORE_SLEEP = 30`). -/
def TIME_BEFORE_SLEEP : ℚ := 30

/-- The mutable module-level state of `photobooth.py`: the controller
globals (`CURRENT_STATE`, `TOTAL_TIME`, `STATE_START`,
`CURRENT_PHOTO_PATH`), the liveness of the two external display
processes (`VIDEO_FEED_POPEN`, `PHOTO_PREVIEW_POPEN`), and the cached
LED state (`BUTTON_LED.is_on`). -/
structure Booth where
  CURRENT_STATE : States
  TOTAL_TIME : ℚ
  STATE_START : ℚ
  CURRENT_PHOTO_PATH : Option String
  videoFeedActive : Bool
  photoPreviewActive : Bool
  buttonLedOn : Bool
deriving DecidableEq, Repr

/-- The external side effects an operation can perform, in the order it
performs them: `kill_video_feed`, `start_video_feed`,
`kill_photo_preview`, `start_photo_preview`, `take_photo`,
`print_photo`. -/
inductive Effect where
  | killVideoFeed
  | startVideoFeed
  | killPhotoPreview
  | startPhotoPreview (path : String)
  | takePhoto (path : String)
  | printPhoto (path : Option String)
deriving DecidableEq, Repr

/-- Python's `%` on a float with a positive divisor:
`a % b = a - b * floor(a / b)` (result carries the sign of `b`). -/
def pymod (a b : ℚ) : ℚ := a - b * (⌊a / b⌋ : ℚ)

/-- The indicator policy of the final block of `update` (lines 241-252):
blink in `SLEEP` (`TOTAL_TIME % BLINK_PERIOD > BLINK_PERIOD / 2`),
solid on in `IDLE` and `PRINT_CHECK`, off otherwise (`COUNTDOWN`). -/
def ledPolicy (st : States) (totalTime : ℚ) : Bool :=
  match st with
  | States.SLEEP => decide (pymod totalTime BLINK_PERIOD > BLINK_PERIOD / 2)
  | States.IDLE => true
  | States.PRINT_CHECK => true
  | States.COUNTDOWN => false

/-- The result of one `update(dt)` call: the post-call globals, the
trace of external side effects in execution order, and the raised
exception if any (`RuntimeError` message).  When an exception is raised
the globals keep the values they had at the raise point and the LED
block is not executed. -/
structure StepResult where
  booth : Booth
  effects : List Effect
  error : Option String
deriving DecidableEq, Repr

/-- `update(dt)` (source lines 204-252).  `feedDead` models
`VIDEO_FEED_POPEN.poll() is not None`; `newPhotoPath` is the wall-clock
filename `take_photo` would produce if called during this tick. -/
def update (dt : ℚ) (feedDead : Bool) (newPhotoPath : String) (b : Booth) :
    StepResult :=
  let t := b.TOTAL_TIME + dt
  let afterTransition : Booth × List Effect × Option String :=
    match b.CURRENT_STATE with
    | States.COUNTDOWN =>
        if t - b.STATE_START > COUNTDOWN_DURATION then
          ({ b with TOTAL_TIME := t,
                    videoFeedActive := false,
                    CURRENT_PHOTO_PATH := some newPhotoPath,
                    photoPreviewActive := true,
                    STATE_START := t,
                    CURRENT_STATE := States.PRINT_CHECK },
           [Effect.killVideoFeed, Effect.takePhoto newPhotoPath,
            Effect.startPhotoPreview newPhotoPath], none)
        else
          ({ b with TOTAL_TIME := t }, [], none)
    | States.PRINT_CHECK =>
        if t - b.STATE_START > PRINT_CHECK_DURATION then
          ({ b with TOTAL_TIME := t,
                    photoPreviewActive := false,
                    videoFeedActive := true,
                    STATE_START := t,
                    CURRENT_STATE := States.IDLE },
           [Effect.killPhotoPreview, Effect.printPhoto b.CURRENT_PHOTO_PATH,
            Effect.startVideoFeed], none)
        else
          ({ b with TOTAL_TIME := t }, [], none)
    | States.IDLE =>
        if t - b.STATE_START > TIME_BEFORE_SLEEP then
          ({ b with TOTAL_TIME := t,
                    videoFeedActive := false,
                    STATE_START := t,
                    CURRENT_STATE := States.SLEEP },
           [Effect.killVideoFeed], none)
        else if feedDead then
          ({ b with TOTAL_TIME := t }, [],
           some "Videofeed died unexpectedly.")
        else
          ({ b with TOTAL_TIME := t }, [], none)
    | States.SLEEP =>
        ({ b with TOTAL_TIME := t }, [], none)
  match afterTransition with
  | (b2, effs, some e) => { booth := b2, effects := effs, error := some e }
  | (b2, effs, none) =>
      { booth := { b2 with
                    buttonLedOn := ledPolicy b2.CURRENT_STATE b2.TOTAL_TIME },
        effects := effs, error := none }

/-- `button_event` (source lines 157-182): wake from sleep, start the
countdown, or cancel the print check; a press in `COUNTDOWN` matches no
branch and does nothing. -/
def button_event (b : Booth) : Booth × List Effect :=
  match b.CURRENT_STATE with
  | States.SLEEP =>
      ({ b with videoFeedActive := true,
                STATE_START := b.TOTAL_TIME,
                CURRENT_STATE := States.IDLE },
       [Effect.startVideoFeed])
  | States.IDLE =>
      ({ b with STATE_START := b.TOTAL_TIME,
                CURRENT_STATE := States.COUNTDOWN },
       [])
  | States.PRINT_CHECK =>
      ({ b with photoPreviewActive := false,
                videoFeedActive := true,
                CURRENT_STATE := States.IDLE,
                STATE_START := b.TOTAL_TIME },
       [Effect.killPhotoPreview, Effect.startVideoFeed])
  | States.COUNTDOWN => (b, [])

/-- The module-level initial values (source lines 97-103): state
`SLEEP`, both timers `0`, no photo, no external process running, LED
initialised off. -/
def initBooth : Booth :=
  { CURRENT_STATE := States.SLEEP
    TOTAL_TIME := 0
    STATE_START := 0
    CURRENT_PHOTO_PATH := none
    videoFeedActive := false
    photoPreviewActive := false
    buttonLedOn := false }

/-- The states the controller can actually reach from startup, stepping
by button presses and by ticks (with arbitrary tick inputs). -/
inductive Reachable : Booth → Prop where
  | init : Reachable initBooth
  | press {b : Booth} : Reachable b → Reachable (button_event b).1
  | tick {b : Booth} (dt : ℚ) (feedDead : Bool) (newPhotoPath : String) :
      Reachable b → Reachable (update dt feedDead newPhotoPath b).booth

/-! ## Reachability invariant on processes and the captured photo -/

/-- Per-state invariant: which of the two display processes is running
in each state, and that a photo path is stored while in `PRINT_CHECK`. -/
def ProcInv (b : Booth) : Prop :=
  (b.CURRENT_STATE = States.SLEEP →
     b.videoFeedActive = false ∧ b.photoPreviewActive = false) ∧
  (b.CURRENT_STATE = States.IDLE →
     b.videoFeedActive = true ∧ b.photoPreviewActive = false) ∧
  (b.CURRENT_STATE = States.COUNTDOWN →
     b.videoFeedActive = true ∧ b.photoPreviewActive = false) ∧
  (b.CURRENT_STATE = States.PRINT_CHECK →
     b.videoFeedActive = false ∧ b.photoPreviewActive = true ∧
     b.CURRENT_PHOTO_PATH.isSome = true)

/-! ## Process supervisor model: exclusivity along effect traces -/

/-- The liveness of the two display processes the supervisor owns. -/
structure Procs where
  feed : Bool
  preview : Bool
deriving DecidableEq, Repr

/-- The process state recorded in the controller state. -/
def Booth.procs (b : Booth) : Procs :=
  { feed := b.videoFeedActive, preview := b.photoPreviewActive }

/-- How one external side effect changes which processes run. -/
def applyEffect (p : Procs) : Effect → Procs
  | Effect.killVideoFeed => { p with feed := false }
  | Effect.startVideoFeed => { p with feed := true }
  | Effect.killPhotoPreview => { p with preview := false }
  | Effect.startPhotoPreview _ => { p with preview := true }
  | Effect.takePhoto _ => p
  | Effect.printPhoto _ => p

/-- Feed/preview exclusivity holds before, between and after every
effect of a trace executed from process state `p`. -/
def exclusiveAlong (p : Procs) : List Effect → Bool
  | [] => !(p.feed && p.preview)
  | e :: rest => (!(p.feed && p.preview)) && exclusiveAlong (applyEffect p e) rest

/-- How many print-operation invocations a trace contains. -/
def countPrints : List Effect → Nat
  | [] => 0
  | Effect.printPhoto _ :: rest => countPrints rest + 1
  | Effect.killVideoFeed :: rest => countPrints rest
  | Effect.startVideoFeed :: rest => countPrints rest
  | Effect.killPhotoPreview :: rest => countPrints rest
  | Effect.startPhotoPreview _ :: rest => countPrints rest
  | Effect.takePhoto _ :: rest => countPrints rest

/-! ## Spec-side decomposition of a tick (for the stage-order claim)

These three definitions follow the spec's words, not the source text:
"`tick(dt)` first accumulates `total_elapsed += dt`, evaluates the table
row for the current state using `total_elapsed - state_entered_at`, then
recomputes the Indicator policy regardless of whether a transition
fired."  They are compared with `update` by the refinement theorem. -/

/-- Stage 1 of the spec's tick: accumulate `total_elapsed += dt`. -/
def specAccumulate (dt : ℚ) (b : Booth) : Booth :=
  { b with TOTAL_TIME := b.TOTAL_TIME + dt }

/-- Stage 2 of the spec's tick: evaluate the transition-table row for
the current state, with elapsed-in-state read as
`total_elapsed - state_entered_at` on the already-accumulated state. -/
def specTransition (feedDead : Bool) (newPhotoPath : String) (b : Booth) :
    StepResult :=
  match b.CURRENT_STATE with
  | States.COUNTDOWN =>
      if b.TOTAL_TIME - b.STATE_START > COUNTDOWN_DURATION then
        { booth := { b with videoFeedActive := false,
                            CURRENT_PHOTO_PATH := some newPhotoPath,
                            photoPreviewActive := true,
                            STATE_START := b.TOTAL_TIME,
                            CURRENT_STATE := States.PRINT_CHECK },
          effects := [Effect.killVideoFeed, Effect.takePhoto newPhotoPath,
                      Effect.startPhotoPreview newPhotoPath],
          error := none }
      else { booth := b, effects := [], error := none }
  | States.PRINT_CHECK =>
      if b.TOTAL_TIME - b.STATE_START > PRINT_CHECK_DURATION then
        { booth := { b with photoPreviewActive := false,
                            videoFeedActive := true,
                            STATE_START := b.TOTAL_TIME,
                            CURRENT_STATE := States.IDLE },
          effects := [Effect.killPhotoPreview,
                      Effect.printPhoto b.CURRENT_PHOTO_PATH,
                      Effect.startVideoFeed],
          error := none }
      else { booth := b, effects := [], error := none }
  | States.IDLE =>
      if b.TOTAL_TIME - b.STATE_START > TIME_BEFORE_SLEEP then
        { booth := { b with videoFeedActive := false,
                            STATE_START := b.TOTAL_TIME,
                            CURRENT_STATE := States.SLEEP },
          effects := [Effect.killVideoFeed], error := none }
      else if feedDead then
        { booth := b, effects := [],
          error := some "Videofeed died unexpectedly." }
      else { booth := b, effects := [], error := none }
  | States.SLEEP => { booth := b, effects := [], error := none }

/-- Stage 3 of the spec's tick: recompute the indicator policy on the
post-transition state (skipped when the tick raised, since the raise
aborts the call before the indicator block). -/
def specIndicator (r : StepResult) : StepResult :=
  match r.error with
  | some _ => r
  | none =>
      { r with booth := { r.booth with
          buttonLedOn := ledPolicy r.booth.CURRENT_STATE r.booth.TOTAL_TIME } }

/-! ## Event sequences -/

/-- One logical event delivered to the controller: a driver tick with
its inputs, or a debounced button press. -/
inductive Op where
  | tick (dt : ℚ) (feedDead : Bool) (newPhotoPath : String)
  | press
deriving DecidableEq, Repr

/-- Applying one event to the controller state (ignoring trace/error). -/
def stepOp (b : Booth) : Op → Booth
  | Op.tick dt fd ph => (update dt fd ph b).booth
  | Op.press => (button_event b).1

/-- Applying a sequence of events in order. -/
def run (b : Booth) : List Op → Booth
  | [] => b
  | op :: rest => run (stepOp b op) rest

/-- Every tick in the sequence has `dt ≥ 0`. -/
def nonnegTicks : List Op → Prop
  | [] => True
  | Op.tick dt _ _ :: rest => 0 ≤ dt ∧ nonnegTicks rest
  | Op.press :: rest => nonnegTicks rest

/-! ## Concrete runs used as witnesses and counterexamples -/

/-- After the first press: woken into `IDLE`. -/
def exBooth1 : Booth := (button_event initBooth).1

/-- After a second press: `COUNTDOWN`. -/
def exBooth2 : Booth := (button_event exBooth1).1

/-- After a 9-second tick: the countdown fired into `PRINT_CHECK`. -/
def exBooth3 : Booth := (update 9 false "p.jpg" exBooth2).booth

/-- After a third press: print cancelled, back in `IDLE`. -/
def exBooth4 : Booth := (button_event exBooth3).1

/-- An arbitrary `IDLE` controller state used to instantiate theorems. -/
def wIdle : Booth :=
  { CURRENT_STATE := States.IDLE
    TOTAL_TIME := 5
    STATE_START := 5
    CURRENT_PHOTO_PATH := none
    videoFeedActive := true
    photoPreviewActive := false
    buttonLedOn := true }

/-- An arbitrary `COUNTDOWN` controller state. -/
def wCountdown : Booth :=
  { wIdle with CURRENT_STATE := States.COUNTDOWN, buttonLedOn := false }

/-- An arbitrary `PRINT_CHECK` controller state. -/
def wPrintCheck : Booth :=
  { CURRENT_STATE := States.PRINT_CHECK
    TOTAL_TIME := 14
    STATE_START := 14
    CURRENT_PHOTO_PATH := some "w.jpg"
    videoFeedActive := false
    photoPreviewActive := true
    buttonLedOn := true }

/-! ## Branch unfolding lemmas for `update` and `button_event` -/

theorem update_sleep_eq (dt : ℚ) (fd : Bool) (ph : String) (b : Booth)
    (h : b.CURRENT_STATE = States.SLEEP) :
    update dt fd ph b =
      { booth := { b with
          TOTAL_TIME := b.TOTAL_TIME + dt,
          buttonLedOn :=
            decide (pymod (b.TOTAL_TIME + dt) BLINK_PERIOD > BLINK_PERIOD / 2) },
        effects := [], error := none } := by
  simp [update, h, ledPolicy]

theorem update_countdown_fire_eq (dt : ℚ) (fd : Bool) (ph : String) (b : Booth)
    (h : b.CURRENT_STATE = States.COUNTDOWN)
    (hg : b.TOTAL_TIME + dt - b.STATE_START > COUNTDOWN_DURATION) :
    update dt fd ph b =
      { booth := { b with
          TOTAL_TIME := b.TOTAL_TIME + dt,
          videoFeedActive := false,
          CURRENT_PHOTO_PATH := some ph,
          photoPreviewActive := true,
          STATE_START := b.TOTAL_TIME + dt,
          CURRENT_STATE := States.PRINT_CHECK,
          buttonLedOn := true },
        effects := [Effect.killVideoFeed, Effect.takePhoto ph,
                    Effect.startPhotoPreview ph],
        error := none } := by
  simp [update, h, hg, ledPolicy]

theorem update_countdown_stay_eq (dt : ℚ) (fd : Bool) (ph : String) (b : Booth)
    (h : b.CURRENT_STATE = States.COUNTDOWN)
    (hg : ¬(b.TOTAL_TIME + dt - b.STATE_START > COUNTDOWN_DURATION)) :
    update dt fd ph b =
      { booth := { b with
          TOTAL_TIME := b.TOTAL_TIME + dt,
          buttonLedOn := false },
        effects := [], error := none } := by
  simp [update, h, hg, ledPolicy]

theorem update_printcheck_fire_eq (dt : ℚ) (fd : Bool) (ph : String) (b : Booth)
    (h : b.CURRENT_STATE = States.PRINT_CHECK)
    (hg : b.TOTAL_TIME + dt - b.STATE_START > PRINT_CHECK_DURATION) :
    update dt fd ph b =
      { booth := { b with
          TOTAL_TIME := b.TOTAL_TIME + dt,
          photoPreviewActive := false,
          videoFeedActive := true,
          STATE_START := b.TOTAL_TIME + dt,
          CURRENT_STATE := States.IDLE,
          buttonLedOn := true },
        effects := [Effect.killPhotoPreview,
                    Effect.printPhoto b.CURRENT_PHOTO_PATH,
                    Effect.startVideoFeed],
        error := none } := by
  simp [update, h, hg, ledPolicy]

theorem update_printcheck_stay_eq (dt : ℚ) (fd : Bool) (ph : String) (b : Booth)
    (h : b.CURRENT_STATE = States.PRINT_CHECK)
    (hg : ¬(b.TOTAL_TIME + dt - b.STATE_START > PRINT_CHECK_DURATION)) :
    update dt fd ph b =
      { booth := { b with
          TOTAL_TIME := b.TOTAL_TIME + dt,
          buttonLedOn := true },
        effects := [], error := none } := by
  simp [update, h, hg, ledPolicy]

theorem update_idle_sleep_eq (dt : ℚ) (fd : Bool) (ph : String) (b : Booth)
    (h : b.CURRENT_STATE = States.IDLE)
    (hg : b.TOTAL_TIME + dt - b.STATE_START > TIME_BEFORE_SLEEP) :
    update dt fd ph b =
      { booth := { b with
          TOTAL_TIME := b.TOTAL_TIME + dt,
          videoFeedActive := false,
          STATE_START := b.TOTAL_TIME + dt,
          CURRENT_STATE := States.SLEEP,
          buttonLedOn :=
            decide (pymod (b.TOTAL_TIME + dt) BLINK_PERIOD > BLINK_PERIOD / 2) },
        effects := [Effect.killVideoFeed], error := none } := by
  simp [update, h, hg, ledPolicy]

theorem update_idle_dead_eq (dt : ℚ) (ph : String) (b : Booth)
    (h : b.CURRENT_STATE = States.IDLE)
    (hg : ¬(b.TOTAL_TIME + dt - b.STATE_START > TIME_BEFORE_SLEEP)) :
    update dt true ph b =
      { booth := { b with TOTAL_TIME := b.TOTAL_TIME + dt },
        effects := [], error := some "Videofeed died unexpectedly." } := by
  simp [update, h, hg]

theorem update_idle_stay_eq (dt : ℚ) (ph : String) (b : Booth)
    (h : b.CURRENT_STATE = States.IDLE)
    (hg : ¬(b.TOTAL_TIME + dt - b.STATE_START > TIME_BEFORE_SLEEP)) :
    update dt false ph b =
      { booth := { b with
          TOTAL_TIME := b.TOTAL_TIME + dt,
          buttonLedOn := true },
        effects := [], error := none } := by
  simp [update, h, hg, ledPolicy]

theorem button_event_sleep_eq (b : Booth)
    (h : b.CURRENT_STATE = States.SLEEP) :
    button_event b =
      ({ b with videoFeedActive := true,
                STATE_START := b.TOTAL_TIME,
                CURRENT_STATE := States.IDLE },
       [Effect.startVideoFeed]) := by
  simp [button_event, h]

theorem button_event_idle_eq (b : Booth)
    (h : b.CURRENT_STATE = States.IDLE) :
    button_event b =
      ({ b with STATE_START := b.TOTAL_TIME,
                CURRENT_STATE := States.COUNTDOWN },
       []) := by
  simp [button_event, h]

theorem button_event_printcheck_eq (b : Booth)
    (h : b.CURRENT_STATE = States.PRINT_CHECK) :
    button_event b =
      ({ b with photoPreviewActive := false,
                videoFeedActive := true,
                CURRENT_STATE := States.IDLE,
                STATE_START := b.TOTAL_TIME },
       [Effect.killPhotoPreview, Effect.startVideoFeed]) := by
  simp [button_event, h]

theorem button_event_countdown_eq (b : Booth)
    (h : b.CURRENT_STATE = States.COUNTDOWN) :
    button_event b = (b, []) := by
  simp [button_event, h]

/-! ## The reachability invariant -/

theorem reachable_procInv {b : Booth} (h : Reachable b) : ProcInv b := by
  induction h with
  | init => simp [ProcInv, initBooth]
  | @press b hb ih =>
      cases hst : b.CURRENT_STATE with
      | SLEEP =>
          rw [button_event_sleep_eq b hst]
          simpa [ProcInv, hst] using (ih.1 hst).2
      | IDLE =>
          rw [button_event_idle_eq b hst]
          simpa [ProcInv, hst] using ih.2.1 hst
      | COUNTDOWN =>
          rw [button_event_countdown_eq b hst]
          exact ih
      | PRINT_CHECK =>
          rw [button_event_printcheck_eq b hst]
          simp [ProcInv]
  | @tick b dt fd ph hb ih =>
      cases hst : b.CURRENT_STATE with
      | SLEEP =>
          rw [update_sleep_eq dt fd ph b hst]
          simpa [ProcInv, hst] using ih.1 hst
      | IDLE =>
          by_cases hg : b.TOTAL_TIME + dt - b.STATE_START > TIME_BEFORE_SLEEP
          · rw [update_idle_sleep_eq dt fd ph b hst hg]
            simpa [ProcInv] using (ih.2.1 hst).2
          · cases fd with
            | true =>
                rw [update_idle_dead_eq dt ph b hst hg]
                simpa [ProcInv, hst] using ih.2.1 hst
            | false =>
                rw [update_idle_stay_eq dt ph b hst hg]
                simpa [ProcInv, hst] using ih.2.1 hst
      | COUNTDOWN =>
          by_cases hg : b.TOTAL_TIME + dt - b.STATE_START > COUNTDOWN_DURATION
          · rw [update_countdown_fire_eq dt fd ph b hst hg]
            simp [ProcInv]
          · rw [update_countdown_stay_eq dt fd ph b hst hg]
            simpa [ProcInv, hst] using ih.2.2.1 hst
      | PRINT_CHECK =>
          by_cases hg : b.TOTAL_TIME + dt - b.STATE_START > PRINT_CHECK_DURATION
          · rw [update_printcheck_fire_eq dt fd ph b hst hg]
            simp [ProcInv]
          · rw [update_printcheck_stay_eq dt fd ph b hst hg]
            simpa [ProcInv, hst] using ih.2.2.2 hst

/-! ## Further helper lemmas -/

theorem update_led_eq (dt : ℚ) (fd : Bool) (ph : String) (b : Booth)
    (h : (update dt fd ph b).error = none) :
    (update dt fd ph b).booth.buttonLedOn =
      ledPolicy (update dt fd ph b).booth.CURRENT_STATE
        (update dt fd ph b).booth.TOTAL_TIME := by
  cases hst : b.CURRENT_STATE with
  | SLEEP =>
      rw [update_sleep_eq dt fd ph b hst]
      simp [ledPolicy, hst]
  | COUNTDOWN =>
      by_cases hg : b.TOTAL_TIME + dt - b.STATE_START > COUNTDOWN_DURATION
      · rw [update_countdown_fire_eq dt fd ph b hst hg]
        simp [ledPolicy]
      · rw [update_countdown_stay_eq dt fd ph b hst hg]
        simp [ledPolicy, hst]
  | PRINT_CHECK =>
      by_cases hg : b.TOTAL_TIME + dt - b.STATE_START > PRINT_CHECK_DURATION
      · rw [update_printcheck_fire_eq dt fd ph b hst hg]
        simp [ledPolicy]
      · rw [update_printcheck_stay_eq dt fd ph b hst hg]
        simp [ledPolicy, hst]
  | IDLE =>
      by_cases hg : b.TOTAL_TIME + dt - b.STATE_START > TIME_BEFORE_SLEEP
      · rw [update_idle_sleep_eq dt fd ph b hst hg]
        simp [ledPolicy]
      · cases fd with
        | true =>
            rw [update_idle_dead_eq dt ph b hst hg] at h
            simp at h
        | false =>
            rw [update_idle_stay_eq dt ph b hst hg]
            simp [ledPolicy, hst]

theorem update_total_eq (dt : ℚ) (fd : Bool) (ph : String) (b : Booth) :
    (update dt fd ph b).booth.TOTAL_TIME = b.TOTAL_TIME + dt := by
  cases hst : b.CURRENT_STATE with
  | SLEEP => simp [update_sleep_eq dt fd ph b hst]
  | COUNTDOWN =>
      by_cases hg : b.TOTAL_TIME + dt - b.STATE_START > COUNTDOWN_DURATION
      · simp [update_countdown_fire_eq dt fd ph b hst hg]
      · simp [update_countdown_stay_eq dt fd ph b hst hg]
  | PRINT_CHECK =>
      by_cases hg : b.TOTAL_TIME + dt - b.STATE_START > PRINT_CHECK_DURATION
      · simp [update_printcheck_fire_eq dt fd ph b hst hg]
      · simp [update_printcheck_stay_eq dt fd ph b hst hg]
  | IDLE =>
      by_cases hg : b.TOTAL_TIME + dt - b.STATE_START > TIME_BEFORE_SLEEP
      · simp [update_idle_sleep_eq dt fd ph b hst hg]
      · cases fd with
        | true => simp [update_idle_dead_eq dt ph b hst hg]
        | false => simp [update_idle_stay_eq dt ph b hst hg]

theorem button_event_total_eq (b : Booth) :
    (button_event b).1.TOTAL_TIME = b.TOTAL_TIME := by
  cases hst : b.CURRENT_STATE with
  | SLEEP => simp [button_event_sleep_eq b hst]
  | IDLE => simp [button_event_idle_eq b hst]
  | COUNTDOWN => simp [button_event_countdown_eq b hst]
  | PRINT_CHECK => simp [button_event_printcheck_eq b hst]

theorem run_total_mono (ops : List Op) (b : Booth) (hops : nonnegTicks ops) :
    b.TOTAL_TIME ≤ (run b ops).TOTAL_TIME := by
  induction ops generalizing b with
  | nil => simp [run]
  | cons op rest ih =>
      cases op with
      | tick dt fd ph =>
          obtain ⟨hdt, hrest⟩ := hops
          rw [run]
          refine le_trans ?_ (ih (stepOp b (Op.tick dt fd ph)) hrest)
          simp only [stepOp, update_total_eq]
          linarith
      | press =>
          rw [run]
          refine le_trans ?_ (ih (stepOp b Op.press) hops)
          simp [stepOp, button_event_total_eq]

/-! ## Claim theorems -/

/-- C1 (amended): for every reachable state, the captured-photo
reference is defined whenever the state is `PrintCheck`; it is set at
the `Countdown` to `PrintCheck` transition; but it is NOT cleared on the
transitions that leave `PrintCheck` — both the press path and the
timeout path keep `CURRENT_PHOTO_PATH` unchanged, so the reference can
remain defined outside `PrintCheck`.  (The original claim's "defined if
and only if the current state is PrintCheck" is refuted by
`captured_photo_cleared_cex`.) -/
theorem captured_photo_lifetime (b : Booth) (dt : ℚ) (fd : Bool) (ph : String)
    (h : Reachable b) :
    (b.CURRENT_STATE = States.PRINT_CHECK →
      b.CURRENT_PHOTO_PATH.isSome = true) ∧
    (b.CURRENT_STATE = States.COUNTDOWN →
      b.TOTAL_TIME + dt - b.STATE_START > COUNTDOWN_DURATION →
      (update dt fd ph b).booth.CURRENT_PHOTO_PATH = some ph) ∧
    (b.CURRENT_STATE = States.PRINT_CHECK →
      (button_event b).1.CURRENT_PHOTO_PATH = b.CURRENT_PHOTO_PATH ∧
      (update dt fd ph b).booth.CURRENT_PHOTO_PATH = b.CURRENT_PHOTO_PATH) := by
  refine ⟨fun hst => ((reachable_procInv h).2.2.2 hst).2.2, ?_, ?_⟩
  · intro hst hg
    simp [update_countdown_fire_eq dt fd ph b hst hg]
  · intro hst
    constructor
    · simp [button_event_printcheck_eq b hst]
    · by_cases hg : b.TOTAL_TIME + dt - b.STATE_START > PRINT_CHECK_DURATION
      · simp [update_printcheck_fire_eq dt fd ph b hst hg]
      · simp [update_printcheck_stay_eq dt fd ph b hst hg]

/-- C1 witness: the amended statement instantiated at the concrete
reachable `PRINT_CHECK` state `exBooth3`. -/
theorem captured_photo_lifetime_witness :
    (exBooth3.CURRENT_STATE = States.PRINT_CHECK →
      exBooth3.CURRENT_PHOTO_PATH.isSome = true) ∧
    (exBooth3.CURRENT_STATE = States.COUNTDOWN →
      exBooth3.TOTAL_TIME + 1 - exBooth3.STATE_START > COUNTDOWN_DURATION →
      (update 1 false "q.jpg" exBooth3).booth.CURRENT_PHOTO_PATH =
        some "q.jpg") ∧
    (exBooth3.CURRENT_STATE = States.PRINT_CHECK →
      (button_event exBooth3).1.CURRENT_PHOTO_PATH =
        exBooth3.CURRENT_PHOTO_PATH ∧
      (update 1 false "q.jpg" exBooth3).booth.CURRENT_PHOTO_PATH =
        exBooth3.CURRENT_PHOTO_PATH) :=
  captured_photo_lifetime exBooth3 1 false "q.jpg"
    (Reachable.tick 9 false "p.jpg"
      (Reachable.press (Reachable.press Reachable.init)))

/-- C1 counterexample: after press, press, a 9 s tick and a third press,
the controller is reachable, sits in `IDLE`, and still holds the
captured-photo reference — so the reference is NOT "defined if and only
if the current state is PrintCheck", and it was not cleared on the press
path out of `PrintCheck`. -/
theorem captured_photo_cleared_cex :
    Reachable exBooth4 ∧ exBooth4.CURRENT_STATE = States.IDLE ∧
    exBooth4.CURRENT_PHOTO_PATH = some "p.jpg" := by
  refine ⟨Reachable.press (Reachable.tick 9 false "p.jpg"
      (Reachable.press (Reachable.press Reachable.init))), ?_, ?_⟩ <;>
    norm_num [exBooth4, exBooth3, exBooth2, exBooth1, update, button_event,
      initBooth, COUNTDOWN_DURATION, ledPolicy]

/-- C2: in every reachable state the video feed and the photo preview
are never simultaneously active, and along the effect trace of any press
or tick from a reachable state — including between consecutive effects,
so in particular the feed is stopped before the preview starts and the
preview is stopped before the feed restarts — the exclusivity predicate
holds at every intermediate point. -/
theorem feed_preview_exclusive (b : Booth) (dt : ℚ) (fd : Bool) (ph : String)
    (h : Reachable b) :
    (b.videoFeedActive && b.photoPreviewActive) = false ∧
    exclusiveAlong b.procs (button_event b).2 = true ∧
    exclusiveAlong b.procs (update dt fd ph b).effects = true := by
  have hinv := reachable_procInv h
  cases hst : b.CURRENT_STATE with
  | SLEEP =>
      obtain ⟨hf, hp⟩ := hinv.1 hst
      refine ⟨by simp [hf, hp], ?_, ?_⟩
      · simp [button_event_sleep_eq b hst, exclusiveAlong, applyEffect,
          Booth.procs, hf, hp]
      · simp [update_sleep_eq dt fd ph b hst, exclusiveAlong, Booth.procs,
          hf, hp]
  | IDLE =>
      obtain ⟨hf, hp⟩ := hinv.2.1 hst
      refine ⟨by simp [hf, hp], ?_, ?_⟩
      · simp [button_event_idle_eq b hst, exclusiveAlong, Booth.procs,
          hf, hp]
      · by_cases hg : b.TOTAL_TIME + dt - b.STATE_START > TIME_BEFORE_SLEEP
        · simp [update_idle_sleep_eq dt fd ph b hst hg, exclusiveAlong,
            applyEffect, Booth.procs, hf, hp]
        · cases fd with
          | true =>
              simp [update_idle_dead_eq dt ph b hst hg, exclusiveAlong,
                Booth.procs, hf, hp]
          | false =>
              simp [update_idle_stay_eq dt ph b hst hg, exclusiveAlong,
                Booth.procs, hf, hp]
  | COUNTDOWN =>
      obtain ⟨hf, hp⟩ := hinv.2.2.1 hst
      refine ⟨by simp [hf, hp], ?_, ?_⟩
      · simp [button_event_countdown_eq b hst, exclusiveAlong, Booth.procs,
          hf, hp]
      · by_cases hg : b.TOTAL_TIME + dt - b.STATE_START > COUNTDOWN_DURATION
        · simp [update_countdown_fire_eq dt fd ph b hst hg, exclusiveAlong,
            applyEffect, Booth.procs, hf, hp]
        · simp [update_countdown_stay_eq dt fd ph b hst hg, exclusiveAlong,
            Booth.procs, hf, hp]
  | PRINT_CHECK =>
      obtain ⟨hf, hp, -⟩ := hinv.2.2.2 hst
      refine ⟨by simp [hf, hp], ?_, ?_⟩
      · simp [button_event_printcheck_eq b hst, exclusiveAlong, applyEffect,
          Booth.procs, hf, hp]
      · by_cases hg : b.TOTAL_TIME + dt - b.STATE_START > PRINT_CHECK_DURATION
        · simp [update_printcheck_fire_eq dt fd ph b hst hg, exclusiveAlong,
            applyEffect, Booth.procs, hf, hp]
        · simp [update_printcheck_stay_eq dt fd ph b hst hg, exclusiveAlong,
            Booth.procs, hf, hp]

/-- C2 witness: exclusivity at the concrete reachable `PRINT_CHECK`
state `exBooth3`, for a press and for a timeout tick. -/
theorem feed_preview_exclusive_witness :
    (exBooth3.videoFeedActive && exBooth3.photoPreviewActive) = false ∧
    exclusiveAlong exBooth3.procs (button_event exBooth3).2 = true ∧
    exclusiveAlong exBooth3.procs (update 11 false "q.jpg" exBooth3).effects =
      true :=
  feed_preview_exclusive exBooth3 11 false "q.jpg"
    (Reachable.tick 9 false "p.jpg"
      (Reachable.press (Reachable.press Reachable.init)))

/-- C3: a tick made in `Idle` raises the fatal "Videofeed died
unexpectedly." error exactly when the feed process has terminated and
the sleep-timeout transition does not fire first in that same tick; the
raise aborts the call (the indicator block is skipped and the error
propagates out of the control loop). -/
theorem idle_feed_death_fatal (b : Booth) (dt : ℚ) (fd : Bool) (ph : String)
    (h : b.CURRENT_STATE = States.IDLE) :
    (update dt fd ph b).error.isSome = true ↔
      fd = true ∧ ¬(b.TOTAL_TIME + dt - b.STATE_START > TIME_BEFORE_SLEEP) := by
  by_cases hg : b.TOTAL_TIME + dt - b.STATE_START > TIME_BEFORE_SLEEP
  · simp [update_idle_sleep_eq dt fd ph b h hg, hg]
  · cases fd with
    | true => simp [update_idle_dead_eq dt ph b h hg, hg]
    | false => simp [update_idle_stay_eq dt ph b h hg, hg]

/-- C3 witness: the dead-feed tick at the concrete `IDLE` state `wIdle`
raises, as the equivalence demands at `fd = true`, `dt = 1`. -/
theorem idle_feed_death_fatal_witness :
    wIdle.CURRENT_STATE = States.IDLE ∧
    ((update 1 true "w.jpg" wIdle).error.isSome = true ↔
      true = true ∧
        ¬(wIdle.TOTAL_TIME + 1 - wIdle.STATE_START > TIME_BEFORE_SLEEP)) :=
  ⟨rfl, idle_feed_death_fatal wIdle 1 true "w.jpg" rfl⟩

/-- C4: while in `Countdown`, a press changes nothing (no branch of
`button_event` matches); the first tick whose elapsed-in-state strictly
exceeds `COUNTDOWN_DURATION` performs the full transition — stop the
video feed, run the still capture, store its result as the captured
photo, start the preview of it, reset the state-entry timer, enter
`PrintCheck` (so the `Countdown` row can never fire a second time for
this entry) — with the effects in exactly that order; any earlier tick
leaves the state, the timer and the photo unchanged and performs no
effect. -/
theorem countdown_fires_once (b : Booth) (dt : ℚ) (fd : Bool) (ph : String)
    (h : b.CURRENT_STATE = States.COUNTDOWN) :
    button_event b = (b, []) ∧
    (b.TOTAL_TIME + dt - b.STATE_START > COUNTDOWN_DURATION →
      update dt fd ph b =
        { booth := { b with
            TOTAL_TIME := b.TOTAL_TIME + dt,
            videoFeedActive := false,
            CURRENT_PHOTO_PATH := some ph,
            photoPreviewActive := true,
            STATE_START := b.TOTAL_TIME + dt,
            CURRENT_STATE := States.PRINT_CHECK,
            buttonLedOn := true },
          effects := [Effect.killVideoFeed, Effect.takePhoto ph,
                      Effect.startPhotoPreview ph],
          error := none }) ∧
    (¬(b.TOTAL_TIME + dt - b.STATE_START > COUNTDOWN_DURATION) →
      (update dt fd ph b).booth.CURRENT_STATE = States.COUNTDOWN ∧
      (update dt fd ph b).booth.STATE_START = b.STATE_START ∧
      (update dt fd ph b).booth.CURRENT_PHOTO_PATH = b.CURRENT_PHOTO_PATH ∧
      (update dt fd ph b).effects = []) :=
  ⟨button_event_countdown_eq b h,
   fun hg => update_countdown_fire_eq dt fd ph b h hg,
   fun hg => by simp [update_countdown_stay_eq dt fd ph b h hg, h]⟩

/-- C4 witness: at the concrete `COUNTDOWN` state `wCountdown` a 9 s
tick crosses the 8 s threshold and fires the transition. -/
theorem countdown_fires_once_witness :
    wCountdown.CURRENT_STATE = States.COUNTDOWN ∧
    (button_event wCountdown = (wCountdown, []) ∧
     (wCountdown.TOTAL_TIME + 9 - wCountdown.STATE_START > COUNTDOWN_DURATION →
       update 9 false "w.jpg" wCountdown =
         { booth := { wCountdown with
             TOTAL_TIME := wCountdown.TOTAL_TIME + 9,
             videoFeedActive := false,
             CURRENT_PHOTO_PATH := some "w.jpg",
             photoPreviewActive := true,
             STATE_START := wCountdown.TOTAL_TIME + 9,
             CURRENT_STATE := States.PRINT_CHECK,
             buttonLedOn := true },
           effects := [Effect.killVideoFeed, Effect.takePhoto "w.jpg",
                       Effect.startPhotoPreview "w.jpg"],
           error := none }) ∧
     (¬(wCountdown.TOTAL_TIME + 9 - wCountdown.STATE_START >
          COUNTDOWN_DURATION) →
       (update 9 false "w.jpg" wCountdown).booth.CURRENT_STATE =
         States.COUNTDOWN ∧
       (update 9 false "w.jpg" wCountdown).booth.STATE_START =
         wCountdown.STATE_START ∧
       (update 9 false "w.jpg" wCountdown).booth.CURRENT_PHOTO_PATH =
         wCountdown.CURRENT_PHOTO_PATH ∧
       (update 9 false "w.jpg" wCountdown).effects = [])) :=
  ⟨rfl, countdown_fires_once wCountdown 9 false "w.jpg" rfl⟩

/-- C5: leaving `PrintCheck` by a press at any time gives the effect
trace `[kill preview, start feed]`, and leaving by a tick whose
elapsed-in-state strictly exceeds `PRINT_CHECK_DURATION` gives
`[kill preview, print photo, start feed]` — on both exit paths the
preview stop strictly precedes the feed restart, and the timeout path
invokes the print operation exactly once, with the stored photo path;
an earlier tick does not leave `PrintCheck` and performs no effect. -/
theorem printcheck_exit_ordering (b : Booth) (dt : ℚ) (fd : Bool) (ph : String)
    (h : b.CURRENT_STATE = States.PRINT_CHECK) :
    ((button_event b).2 = [Effect.killPhotoPreview, Effect.startVideoFeed] ∧
      (button_event b).1.CURRENT_STATE = States.IDLE) ∧
    (b.TOTAL_TIME + dt - b.STATE_START > PRINT_CHECK_DURATION →
      (update dt fd ph b).effects =
        [Effect.killPhotoPreview, Effect.printPhoto b.CURRENT_PHOTO_PATH,
         Effect.startVideoFeed] ∧
      (update dt fd ph b).booth.CURRENT_STATE = States.IDLE ∧
      countPrints (update dt fd ph b).effects = 1) ∧
    (¬(b.TOTAL_TIME + dt - b.STATE_START > PRINT_CHECK_DURATION) →
      (update dt fd ph b).effects = [] ∧
      (update dt fd ph b).booth.CURRENT_STATE = States.PRINT_CHECK) := by
  refine ⟨?_, fun hg => ?_, fun hg => ?_⟩
  · simp [button_event_printcheck_eq b h]
  · simp [update_printcheck_fire_eq dt fd ph b h hg, countPrints]
  · simp [update_printcheck_stay_eq dt fd ph b h hg, h]

/-- C5 witness: at the concrete `PRINT_CHECK` state `wPrintCheck` an
11 s tick crosses the 10 s threshold; a press cancels at any time. -/
theorem printcheck_exit_ordering_witness :
    wPrintCheck.CURRENT_STATE = States.PRINT_CHECK ∧
    (((button_event wPrintCheck).2 =
        [Effect.killPhotoPreview, Effect.startVideoFeed] ∧
      (button_event wPrintCheck).1.CURRENT_STATE = States.IDLE) ∧
     (wPrintCheck.TOTAL_TIME + 11 - wPrintCheck.STATE_START >
        PRINT_CHECK_DURATION →
       (update 11 false "q.jpg" wPrintCheck).effects =
         [Effect.killPhotoPreview,
          Effect.printPhoto wPrintCheck.CURRENT_PHOTO_PATH,
          Effect.startVideoFeed] ∧
       (update 11 false "q.jpg" wPrintCheck).booth.CURRENT_STATE =
         States.IDLE ∧
       countPrints (update 11 false "q.jpg" wPrintCheck).effects = 1) ∧
     (¬(wPrintCheck.TOTAL_TIME + 11 - wPrintCheck.STATE_START >
          PRINT_CHECK_DURATION) →
       (update 11 false "q.jpg" wPrintCheck).effects = [] ∧
       (update 11 false "q.jpg" wPrintCheck).booth.CURRENT_STATE =
         States.PRINT_CHECK)) :=
  ⟨rfl, printcheck_exit_ordering wPrintCheck 11 false "q.jpg" rfl⟩

/-- C6: a tick in `Idle` whose elapsed-in-state strictly exceeds
`TIME_BEFORE_SLEEP` moves the controller to `Sleep` and stops the video
feed; a tick whose elapsed-in-state is strictly below that duration
leaves the state `Idle` (whatever the feed-liveness input). -/
theorem idle_sleep_timeout (b : Booth) (dt : ℚ) (fd : Bool) (ph : String)
    (h : b.CURRENT_STATE = States.IDLE) :
    (b.TOTAL_TIME + dt - b.STATE_START > TIME_BEFORE_SLEEP →
      (update dt fd ph b).booth.CURRENT_STATE = States.SLEEP ∧
      (update dt fd ph b).booth.videoFeedActive = false ∧
      (update dt fd ph b).effects = [Effect.killVideoFeed]) ∧
    (b.TOTAL_TIME + dt - b.STATE_START < TIME_BEFORE_SLEEP →
      (update dt fd ph b).booth.CURRENT_STATE = States.IDLE) := by
  constructor
  · intro hg
    simp [update_idle_sleep_eq dt fd ph b h hg]
  · intro hlt
    have hg : ¬(b.TOTAL_TIME + dt - b.STATE_START > TIME_BEFORE_SLEEP) := by
      linarith
    cases fd with
    | true => simp [update_idle_dead_eq dt ph b h hg, h]
    | false => simp [update_idle_stay_eq dt ph b h hg, h]

/-- C6 witness: at the concrete `IDLE` state `wIdle` a 31 s tick crosses
the 30 s threshold and the controller goes to sleep. -/
theorem idle_sleep_timeout_witness :
    wIdle.CURRENT_STATE = States.IDLE ∧
    ((wIdle.TOTAL_TIME + 31 - wIdle.STATE_START > TIME_BEFORE_SLEEP →
       (update 31 false "w.jpg" wIdle).booth.CURRENT_STATE = States.SLEEP ∧
       (update 31 false "w.jpg" wIdle).booth.videoFeedActive = false ∧
       (update 31 false "w.jpg" wIdle).effects = [Effect.killVideoFeed]) ∧
     (wIdle.TOTAL_TIME + 31 - wIdle.STATE_START < TIME_BEFORE_SLEEP →
       (update 31 false "w.jpg" wIdle).booth.CURRENT_STATE = States.IDLE)) :=
  ⟨rfl, idle_sleep_timeout wIdle 31 false "w.jpg" rfl⟩

/-- C7: after every tick that completes (does not raise), the indicator
follows the per-state policy of the post-transition state: blinking in
`Sleep` — lit exactly when `total_elapsed mod BLINK_PERIOD` strictly
exceeds `BLINK_PERIOD / 2` — always lit in `Idle` and `PrintCheck`,
never lit in `Countdown`. -/
theorem indicator_policy (b : Booth) (dt : ℚ) (fd : Bool) (ph : String)
    (h : (update dt fd ph b).error = none) :
    ((update dt fd ph b).booth.CURRENT_STATE = States.SLEEP →
      (update dt fd ph b).booth.buttonLedOn =
        decide (pymod (update dt fd ph b).booth.TOTAL_TIME BLINK_PERIOD >
          BLINK_PERIOD / 2)) ∧
    ((update dt fd ph b).booth.CURRENT_STATE = States.IDLE →
      (update dt fd ph b).booth.buttonLedOn = true) ∧
    ((update dt fd ph b).booth.CURRENT_STATE = States.PRINT_CHECK →
      (update dt fd ph b).booth.buttonLedOn = true) ∧
    ((update dt fd ph b).booth.CURRENT_STATE = States.COUNTDOWN →
      (update dt fd ph b).booth.buttonLedOn = false) := by
  have hl := update_led_eq dt fd ph b h
  refine ⟨fun hst => ?_, fun hst => ?_, fun hst => ?_, fun hst => ?_⟩ <;>
    rw [hl, hst] <;> simp [ledPolicy]

/-- C7 witness: a tick from the initial sleeping state completes, and
the instantiated policy conjunction holds there. -/
theorem indicator_policy_witness :
    (update 1 false "w.jpg" initBooth).error = none ∧
    (((update 1 false "w.jpg" initBooth).booth.CURRENT_STATE = States.SLEEP →
      (update 1 false "w.jpg" initBooth).booth.buttonLedOn =
        decide (pymod (update 1 false "w.jpg" initBooth).booth.TOTAL_TIME
          BLINK_PERIOD > BLINK_PERIOD / 2)) ∧
    ((update 1 false "w.jpg" initBooth).booth.CURRENT_STATE = States.IDLE →
      (update 1 false "w.jpg" initBooth).booth.buttonLedOn = true) ∧
    ((update 1 false "w.jpg" initBooth).booth.CURRENT_STATE =
        States.PRINT_CHECK →
      (update 1 false "w.jpg" initBooth).booth.buttonLedOn = true) ∧
    ((update 1 false "w.jpg" initBooth).booth.CURRENT_STATE =
        States.COUNTDOWN →
      (update 1 false "w.jpg" initBooth).booth.buttonLedOn = false)) :=
  ⟨by simp [update, initBooth], indicator_policy initBooth 1 false "w.jpg"
    (by simp [update, initBooth])⟩

/-- C8: every tick proceeds in the fixed stage order the spec states:
`update dt` equals the three-stage pipeline in which `total_elapsed` is
first incremented by `dt` (`specAccumulate`), the transition-table row
for the current state is then evaluated with elapsed-in-state read as
`total_elapsed - state_entered_at` (`specTransition`), and the indicator
policy of the post-transition state is finally recomputed whenever the
tick completes, transition or not (`specIndicator`). -/
theorem tick_stage_order (dt : ℚ) (fd : Bool) (ph : String) (b : Booth) :
    update dt fd ph b =
      specIndicator (specTransition fd ph (specAccumulate dt b)) := by
  cases hst : b.CURRENT_STATE with
  | SLEEP =>
      rw [update_sleep_eq dt fd ph b hst]
      simp [specAccumulate, specTransition, specIndicator, hst, ledPolicy]
  | COUNTDOWN =>
      by_cases hg : b.TOTAL_TIME + dt - b.STATE_START > COUNTDOWN_DURATION
      · rw [update_countdown_fire_eq dt fd ph b hst hg]
        simp [specAccumulate, specTransition, specIndicator, hst, hg,
          ledPolicy]
      · rw [update_countdown_stay_eq dt fd ph b hst hg]
        simp [specAccumulate, specTransition, specIndicator, hst, hg,
          ledPolicy]
  | PRINT_CHECK =>
      by_cases hg : b.TOTAL_TIME + dt - b.STATE_START > PRINT_CHECK_DURATION
      · rw [update_printcheck_fire_eq dt fd ph b hst hg]
        simp [specAccumulate, specTransition, specIndicator, hst, hg,
          ledPolicy]
      · rw [update_printcheck_stay_eq dt fd ph b hst hg]
        simp [specAccumulate, specTransition, specIndicator, hst, hg,
          ledPolicy]
  | IDLE =>
      by_cases hg : b.TOTAL_TIME + dt - b.STATE_START > TIME_BEFORE_SLEEP
      · rw [update_idle_sleep_eq dt fd ph b hst hg]
        simp [specAccumulate, specTransition, specIndicator, hst, hg,
          ledPolicy]
      · cases fd with
        | true =>
            rw [update_idle_dead_eq dt ph b hst hg]
            simp [specAccumulate, specTransition, specIndicator, hst, hg]
        | false =>
            rw [update_idle_stay_eq dt ph b hst hg]
            simp [specAccumulate, specTransition, specIndicator, hst, hg,
              ledPolicy]

/-- C9: `total_elapsed` starts at zero at controller creation; a tick
with `dt ≥ 0` never decreases it; a press leaves it unchanged; and
along any event sequence whose ticks all have `dt ≥ 0` it is
monotonically non-decreasing. -/
theorem total_elapsed_monotone (b : Booth) (ops : List Op) (dt : ℚ)
    (fd : Bool) (ph : String) (hops : nonnegTicks ops) (hdt : 0 ≤ dt) :
    initBooth.TOTAL_TIME = 0 ∧
    b.TOTAL_TIME ≤ (update dt fd ph b).booth.TOTAL_TIME ∧
    (button_event b).1.TOTAL_TIME = b.TOTAL_TIME ∧
    b.TOTAL_TIME ≤ (run b ops).TOTAL_TIME := by
  refine ⟨rfl, ?_, button_event_total_eq b, run_total_mono ops b hops⟩
  rw [update_total_eq]
  linarith

/-- C9 witness: the monotonicity conjunction at the initial state, a
1 s tick, and the concrete sequence tick 1, press, tick 2. -/
theorem total_elapsed_monotone_witness :
    nonnegTicks [Op.tick 1 false "a.jpg", Op.press, Op.tick 2 false "b.jpg"] ∧
    (0 : ℚ) ≤ 1 ∧
    (initBooth.TOTAL_TIME = 0 ∧
     initBooth.TOTAL_TIME ≤ (update 1 false "c.jpg" initBooth).booth.TOTAL_TIME ∧
     (button_event initBooth).1.TOTAL_TIME = initBooth.TOTAL_TIME ∧
     initBooth.TOTAL_TIME ≤
       (run initBooth
         [Op.tick 1 false "a.jpg", Op.press, Op.tick 2 false "b.jpg"]).TOTAL_TIME) :=
  ⟨by norm_num [nonnegTicks], by norm_num,
   total_elapsed_monotone initBooth
     [Op.tick 1 false "a.jpg", Op.press, Op.tick 2 false "b.jpg"]
     1 false "c.jpg" (by norm_num [nonnegTicks]) (by norm_num)⟩

/-- C10: a tick in `Sleep` changes only `total_elapsed` (by `dt`) and
the blinking lamp: the state, the state-entry timer, the captured-photo
reference and both process flags are untouched, no effect is performed
and no error is raised; no tick-driven transition leaves `Sleep` — the
press operation is what wakes the controller into `Idle`. -/
theorem sleep_tick_frame (b : Booth) (dt : ℚ) (fd : Bool) (ph : String)
    (h : b.CURRENT_STATE = States.SLEEP) :
    update dt fd ph b =
      { booth := { b with
          TOTAL_TIME := b.TOTAL_TIME + dt,
          buttonLedOn :=
            decide (pymod (b.TOTAL_TIME + dt) BLINK_PERIOD >
              BLINK_PERIOD / 2) },
        effects := [], error := none } ∧
    (update dt fd ph b).booth.CURRENT_STATE = States.SLEEP ∧
    (update dt fd ph b).booth.STATE_START = b.STATE_START ∧
    (update dt fd ph b).booth.CURRENT_PHOTO_PATH = b.CURRENT_PHOTO_PATH ∧
    (button_event b).1.CURRENT_STATE = States.IDLE := by
  refine ⟨update_sleep_eq dt fd ph b h, ?_, ?_, ?_, ?_⟩ <;>
    simp [update_sleep_eq dt fd ph b h, button_event_sleep_eq b h, h]

/-- C10 witness: the frame conjunction at the initial sleeping state
with a 1 s tick. -/
theorem sleep_tick_frame_witness :
    initBooth.CURRENT_STATE = States.SLEEP ∧
    (update 1 false "w.jpg" initBooth =
      { booth := { initBooth with
          TOTAL_TIME := initBooth.TOTAL_TIME + 1,
          buttonLedOn :=
            decide (pymod (initBooth.TOTAL_TIME + 1) BLINK_PERIOD >
              BLINK_PERIOD / 2) },
        effects := [], error := none } ∧
     (update 1 false "w.jpg" initBooth).booth.CURRENT_STATE = States.SLEEP ∧
     (update 1 false "w.jpg" initBooth).booth.STATE_START =
       initBooth.STATE_START ∧
     (update 1 false "w.jpg" initBooth).booth.CURRENT_PHOTO_PATH =
       initBooth.CURRENT_PHOTO_PATH ∧
     (button_event initBooth).1.CURRENT_STATE = States.IDLE) :=
  ⟨rfl, sleep_tick_frame initBooth 1 false "w.jpg" rfl⟩

end Photobooth
